import Mathlib

/-!
Verification of the wallet repository's portfolio-drift logic.

The definitions below are shallow embeddings of the TypeScript source:
* `totalDrift`, `getDriftLevel`, `rowDrift`, `driftSignMark` embed
  `src/frontend/components/PortfolioDriftChart.tsx`;
* `getDriftLevelAgent`, `getDriftLevelAgentLocal`, `recentActionsShown`
  embed `src/frontend/app/autonomous_agent.tsx`;
* `handleImplementStrategy` embeds the validation gate of
  `src/frontend/app/chart.tsx`;
* `decide` models the Decision Engine (backend code not present in the
  repository snapshot) from the specification.

JavaScript numbers are modelled as rationals (`ℚ`); JavaScript objects
`{ [key: string]: number }` are modelled as association lists with the
`obj[k] || 0` access pattern embedded as `lookupD` (missing key gives 0).
-/

namespace Wallet

/-- An allocation object `{ [key: string]: number }`, as a list of
(token, percent) pairs. -/
abbrev Alloc := List (String × ℚ)

/-- Embeds the JS access `alloc[token] || 0`: the value stored at `token`,
or 0 when the key is absent (a stored 0 is falsy in JS and also yields 0,
which coincides). -/
def lookupD (a : Alloc) (k : String) : ℚ :=
  match a with
  | [] => 0
  | (k0, v) :: rest => if k == k0 then v else lookupD rest k

/-- Embeds `totalDrift` of `PortfolioDriftChart.tsx` (lines 74–78):
`Object.keys(targetAllocation).reduce((total, token) =>
   total + Math.abs((currentAllocation[token] || 0) - (targetAllocation[token] || 0)), 0)`.
The iteration is over the keys of the TARGET allocation only. -/
def totalDrift (currentAllocation targetAllocation : Alloc) : ℚ :=
  (targetAllocation.map Prod.fst).foldl
    (fun total token =>
      total + |lookupD currentAllocation token - lookupD targetAllocation token|) 0

/-- The record `{ level, color }` returned by the drift-level helpers. -/
structure DriftLevelInfo where
  level : String
  color : String
deriving DecidableEq, Repr

/-- Embeds `getDriftLevel` of `PortfolioDriftChart.tsx` (lines 80–85). -/
def getDriftLevel (drift : ℚ) : DriftLevelInfo :=
  if drift > 20 then ⟨"Critical", "#F44336"⟩
  else if drift > 15 then ⟨"High", "#FF9800"⟩
  else if drift > 10 then ⟨"Medium", "#FFC107"⟩
  else ⟨"Low", "#4CAF50"⟩

/-- Embeds the module-level `getDriftLevel` of `autonomous_agent.tsx`
(lines 674–679). -/
def getDriftLevelAgent (drift : ℚ) : DriftLevelInfo :=
  if drift > 20 then ⟨"Critical", "#F44336"⟩
  else if drift > 15 then ⟨"High", "#FF9800"⟩
  else if drift > 10 then ⟨"Medium", "#FFC107"⟩
  else ⟨"Low", "#4CAF50"⟩

/-- Embeds the component-local `getDriftLevel` of `autonomous_agent.tsx`
(lines 311–316). -/
def getDriftLevelAgentLocal (drift : ℚ) : DriftLevelInfo :=
  if drift > 20 then ⟨"Critical", "#F44336"⟩
  else if drift > 15 then ⟨"High", "#FF9800"⟩
  else if drift > 10 then ⟨"Medium", "#FFC107"⟩
  else ⟨"Low", "#4CAF50"⟩

/-- Rank of a level string under the ordering Low < Medium < High < Critical,
used to state monotonicity of the bucketing. -/
def levelRank (level : String) : ℕ :=
  if level == "Critical" then 3
  else if level == "High" then 2
  else if level == "Medium" then 1
  else 0

/-- The urgency bucketing as the claim states it (breakpoints inclusive on
the lower side: d < 10 low, 10 ≤ d < 15 medium, 15 ≤ d < 20 high,
d ≥ 20 critical), for comparison with the code's `getDriftLevel`. -/
def claimUrgency (d : ℚ) : String :=
  if d < 10 then "Low"
  else if d < 15 then "Medium"
  else if d < 20 then "High"
  else "Critical"

/-- The total drift as the claim states it: sum over asset keys present in
EITHER allocation of |current − target|, for comparison with the code's
`totalDrift`. -/
def claimTotalDriftEitherKeys (c t : Alloc) : ℚ :=
  (((c.map Prod.fst) ++ (t.map Prod.fst)).dedup.map
    (fun k => |lookupD c k - lookupD t k|)).sum

/-- Sum of per-asset absolute drifts over an explicit key list; used to
restate the fold in `totalDrift` as a plain sum. -/
def driftAbsSum (c t : Alloc) (keys : List String) : ℚ :=
  (keys.map (fun k => |lookupD c k - lookupD t k|)).sum

/-- Embeds the per-row drift magnitude of `PortfolioDriftChart.tsx`
(line 138): `Math.abs(current - target)`. -/
def rowDrift (c t : Alloc) (k : String) : ℚ :=
  |lookupD c k - lookupD t k|

/-- Embeds the per-row sign marker of `PortfolioDriftChart.tsx`
(lines 139 and 156): `isOver = current > target`, displayed as
`isOver ? '+' : '-'`. -/
def driftSignMark (c t : Alloc) (k : String) : String :=
  if lookupD t k < lookupD c k then "+" else "-"

/-- Outcome of the strategy-execution flow's validation gate in
`chart.tsx` (`handleImplementStrategy`). `proceedToSubmission` means all
validations passed and the flow continues to the confirmation step and
then `executeStrategyConfirmed`, which performs the POST to
`/agent/execute`; both `rejected…` outcomes return before any network
call, surfacing an alert to the caller. -/
inductive ExecOutcome where
  | rejectedMissingParams
  | rejectedAllocation
  | proceedToSubmission
deriving DecidableEq, Repr

/-- Sum of the percentage values of an allocation, embedding
`Object.values(parsedStrategy).reduce((sum, val) => sum + val, 0)` of
`chart.tsx` (lines 147–151). -/
def allocSum (a : Alloc) : ℚ :=
  (a.map Prod.snd).sum

/-- Embeds the validation gate of `handleImplementStrategy` in `chart.tsx`
(lines 107–184): missing `strategy_id`/`wallet_address` rejects first;
then `Math.abs(totalPercentage - 100) > 0.1` rejects with an allocation
error; otherwise the flow proceeds to submission. -/
def handleImplementStrategy (strategyId walletAddress : Option String)
    (parsedStrategy : Alloc) : ExecOutcome :=
  if strategyId.isNone || walletAddress.isNone then .rejectedMissingParams
  else if |allocSum parsedStrategy - 100| > 1/10 then .rejectedAllocation
  else .proceedToSubmission

/-- Risk profile presets (spec §3, `risk_profile`). -/
inductive RiskProfile where
  | conservative
  | balanced
  | aggressive
deriving DecidableEq, Repr

/-- Urgency buckets of a drift result (spec §3, `DriftResult.urgency`). -/
inductive Urgency where
  | low
  | medium
  | high
  | critical
deriving DecidableEq, Repr

/-- Numeric rank of an urgency level, low < medium < high < critical. -/
def Urgency.rank : Urgency → ℕ
  | .low => 0
  | .medium => 1
  | .high => 2
  | .critical => 3

/-- Decision of one monitoring cycle (spec §4.4). -/
inductive Decision where
  | skip
  | suggest
  | execute
deriving DecidableEq, Repr

/-- Modelled from the spec: `MonitoringConfig` (spec §3) restricted to the
fields the Decision Engine reads; the backend holding this type is not in
the repository snapshot. -/
structure SpecMonitoringConfig where
  enabled : Bool
  driftThresholdPercent : ℚ
  maxDailyTrades : ℕ
  riskProfile : RiskProfile
  autoExecute : Bool
  minPortfolioValueUsd : ℚ
  dailyTradesCount : ℕ
deriving DecidableEq, Repr

/-- Modelled from the spec: the drift metrics the Decision Engine reads
(spec §3, `DriftResult`). -/
structure SpecDriftResult where
  totalDriftPercent : ℚ
  urgency : Urgency
deriving DecidableEq, Repr

/-- Modelled from the spec: the market snapshot field the Decision Engine
reads (spec §3, `MarketSnapshot.risk_score`). -/
structure SpecMarketSnapshot where
  riskScore : ℚ
deriving DecidableEq, Repr

/-- Modelled from the spec: the minimum urgency rank a risk profile acts
on (spec §4.4 rule 4: conservative acts only on high/critical, balanced
on medium+, aggressive on all). -/
def minActionableUrgencyRank : RiskProfile → ℕ
  | .conservative => 2
  | .balanced => 1
  | .aggressive => 0

/-- Modelled from the spec: the risk-score ceiling per profile (spec §4.4
rule 5). The spec fixes only that conservative has the lowest ceiling;
the concrete values are chosen under that constraint. -/
def riskCeiling : RiskProfile → ℚ
  | .conservative => 60
  | .balanced => 75
  | .aggressive => 85

/-- Modelled from the spec: the Decision Engine's `decide` (spec §4.4),
whose backend implementation is not in the repository snapshot. The eight
policy rules are evaluated in the spec's fixed order, first match wins. -/
def decide (config : SpecMonitoringConfig) (portfolioValue : ℚ)
    (drift : SpecDriftResult) (market : SpecMarketSnapshot) : Decision :=
  if config.enabled = false then .skip
  else if portfolioValue < config.minPortfolioValueUsd then .skip
  else if drift.totalDriftPercent < config.driftThresholdPercent then .skip
  else if drift.urgency.rank < minActionableUrgencyRank config.riskProfile
    then .skip
  else if riskCeiling config.riskProfile < market.riskScore then .suggest
  else if config.maxDailyTrades ≤ config.dailyTradesCount then .suggest
  else if config.autoExecute = false then .suggest
  else .execute

/-- The action record shape returned by the `/autonomous/actions` endpoint
and rendered by `autonomous_agent.tsx` (interface `AutonomousAction`);
the `any`-typed JSON fields are kept as raw strings, which the list
truncation under study never inspects. -/
structure AutonomousAction where
  action_id : String
  wallet_address : String
  action_type : String
  drift_analysis : String
  target_allocation : String
  timestamp : String
  config_used : String
deriving DecidableEq, Repr

/-- Embeds `setRecentActions(actions.slice(0, 10))` of
`autonomous_agent.tsx` (line 169): the list kept in state and displayed
is the first ten elements of the response. -/
def recentActionsShown (actions : List AutonomousAction) :
    List AutonomousAction :=
  actions.take 10

section Helpers

/-- Restates a left fold that accumulates `f` over a list as `init`
plus the sum of the mapped list. -/
theorem foldl_add_eq_sum (f : String → ℚ) :
    ∀ (l : List String) (init : ℚ),
      l.foldl (fun s k => s + f k) init = init + (l.map f).sum := by
  intro l
  induction l with
  | nil => intro init; simp
  | cons a l ih =>
      intro init
      simp only [List.foldl_cons, List.map_cons, List.sum_cons, ih]
      ring

/-- A sum of nonnegative rationals is nonnegative. -/
theorem sum_nonneg_of_forall_nonneg :
    ∀ (l : List ℚ), (∀ x ∈ l, 0 ≤ x) → 0 ≤ l.sum := by
  intro l
  induction l with
  | nil => intro _; simp
  | cons a l ih =>
      intro h
      simp only [List.sum_cons]
      have ha : 0 ≤ a := h a (List.mem_cons_self a l)
      have hl : 0 ≤ l.sum := ih (fun x hx => h x (List.mem_cons_of_mem a hx))
      linarith

/-- A sum of nonnegative rationals is zero iff every element is zero. -/
theorem sum_eq_zero_iff_of_nonneg :
    ∀ (l : List ℚ), (∀ x ∈ l, 0 ≤ x) → (l.sum = 0 ↔ ∀ x ∈ l, x = 0) := by
  intro l
  induction l with
  | nil => intro _; simp
  | cons a l ih =>
      intro h
      have ha : 0 ≤ a := h a (List.mem_cons_self a l)
      have hl : ∀ x ∈ l, 0 ≤ x := fun x hx => h x (List.mem_cons_of_mem a hx)
      have hsum : 0 ≤ l.sum := sum_nonneg_of_forall_nonneg l hl
      simp only [List.sum_cons, List.mem_cons]
      constructor
      · intro h0
        have haz : a = 0 := by linarith
        have hlz : l.sum = 0 := by linarith
        intro x hx
        rcases hx with hx | hx
        · simpa [hx] using haz
        · exact ((ih hl).1 hlz) x hx
      · intro hall
        have haz : a = 0 := hall a (Or.inl rfl)
        have hlz : l.sum = 0 := (ih hl).2 (fun x hx => hall x (Or.inr hx))
        simp [haz, hlz]

/-- `totalDrift` is the sum of per-asset absolute drifts over the TARGET
allocation's keys. -/
theorem totalDrift_eq_driftAbsSum (c t : Alloc) :
    totalDrift c t = driftAbsSum c t (t.map Prod.fst) := by
  unfold totalDrift driftAbsSum
  simpa using foldl_add_eq_sum (fun k => |lookupD c k - lookupD t k|)
    (t.map Prod.fst) 0

end Helpers

/-- C1 counterexample: for current `{BTC: 50}` and target `{}` the code's
`totalDrift` is 0, while the claim's sum over keys present in either
allocation is 50 — so an asset present only in the current allocation
contributes nothing, not its full current percentage, and the two
computations disagree. -/
theorem c1_counterexample :
    totalDrift [("BTC", (50 : ℚ))] [] = 0 ∧
    claimTotalDriftEitherKeys [("BTC", (50 : ℚ))] [] = 50 ∧
    totalDrift [("BTC", (50 : ℚ))] [] ≠
      claimTotalDriftEitherKeys [("BTC", (50 : ℚ))] [] := by
  refine ⟨?_, ?_, ?_⟩ <;>
    simp [totalDrift, claimTotalDriftEitherKeys, lookupD, List.dedup]

/-- C1 (amended): the computed total drift equals the sum, over every asset
key of the TARGET allocation (a key missing from the current allocation
contributing 0 for current), of |current − target|; an asset present only
in the current allocation contributes nothing. -/
theorem c1_totalDrift_sums_target_keys (c t : Alloc) :
    totalDrift c t =
      ((t.map Prod.fst).map (fun k => |lookupD c k - lookupD t k|)).sum := by
  simpa [driftAbsSum] using totalDrift_eq_driftAbsSum c t

/-- C2 counterexample: at total drift exactly 10 the code's bucketing
yields "Low", while the claim's bucketing (10 ≤ d < 15 ⇒ medium) yields
"Medium"; the code's boundaries are strict. -/
theorem c2_counterexample :
    (getDriftLevel 10).level = "Low" ∧
    claimUrgency 10 = "Medium" ∧
    (getDriftLevel 10).level ≠ claimUrgency 10 := by
  have hA : (getDriftLevel 10).level = "Low" := by norm_num [getDriftLevel]
  have hB : claimUrgency 10 = "Medium" := by norm_num [claimUrgency]
  refine ⟨hA, hB, ?_⟩
  rw [hA, hB]
  simp

/-- C2 (amended): the urgency level is the fixed bucketing with strict
lower boundaries: d ≤ 10 yields Low, 10 < d ≤ 15 yields Medium,
15 < d ≤ 20 yields High, and d > 20 yields Critical (so at the exact
boundary values 10, 15 and 20 the level is Low, Medium and High
respectively). -/
theorem c2_bucketing (d : ℚ) :
    (d ≤ 10 → (getDriftLevel d).level = "Low") ∧
    (10 < d → d ≤ 15 → (getDriftLevel d).level = "Medium") ∧
    (15 < d → d ≤ 20 → (getDriftLevel d).level = "High") ∧
    (20 < d → (getDriftLevel d).level = "Critical") := by
  unfold getDriftLevel
  refine ⟨?_, ?_, ?_, ?_⟩ <;> intros <;>
    split_ifs <;> first | rfl | (exfalso; linarith)

/-- C2 witness: the amended bucketing applied at the boundary values —
drift 10 is Low, 15 is Medium, 20 is High, and 21 is Critical. -/
theorem c2_bucketing_witness :
    (getDriftLevel 10).level = "Low" ∧
    (getDriftLevel 15).level = "Medium" ∧
    (getDriftLevel 20).level = "High" ∧
    (getDriftLevel 21).level = "Critical" :=
  ⟨(c2_bucketing 10).1 (by norm_num),
   (c2_bucketing 15).2.1 (by norm_num) (by norm_num),
   (c2_bucketing 20).2.2.1 (by norm_num) (by norm_num),
   (c2_bucketing 21).2.2.2 (by norm_num)⟩

/-- C3 counterexample: for current `{BTC: 50}` and target `{}` the total
drift is 0 even though the current allocation differs from the target on
the asset BTC (present only in the current allocation) — refuting
"total drift equals 0 iff current equals target on every asset, including
assets present in only one of the two allocations". -/
theorem c3_counterexample :
    totalDrift [("BTC", (50 : ℚ))] [] = 0 ∧
    lookupD [("BTC", (50 : ℚ))] "BTC" ≠ lookupD [] "BTC" := by
  refine ⟨?_, ?_⟩ <;> simp [totalDrift, lookupD]

/-- C3 (amended): the drift computation is deterministic, the total drift
is non-negative, and the total drift is 0 iff current equals target on
every asset key of the TARGET allocation (assets present only in the
current allocation are not compared). -/
theorem c3_deterministic_nonneg_zero_iff (c t : Alloc) :
    totalDrift c t = totalDrift c t ∧
    0 ≤ totalDrift c t ∧
    (totalDrift c t = 0 ↔
      ∀ k ∈ t.map Prod.fst, lookupD c k = lookupD t k) := by
  have hsum := totalDrift_eq_driftAbsSum c t
  have hnn : ∀ x ∈ (t.map Prod.fst).map
      (fun k => |lookupD c k - lookupD t k|), 0 ≤ x := by
    intro x hx
    rcases List.mem_map.1 hx with ⟨k, _, rfl⟩
    exact abs_nonneg _
  refine ⟨rfl, ?_, ?_⟩
  · rw [hsum]
    exact sum_nonneg_of_forall_nonneg _ hnn
  · rw [hsum]
    unfold driftAbsSum
    rw [sum_eq_zero_iff_of_nonneg _ hnn]
    constructor
    · intro h k hk
      have := h _ (List.mem_map.2 ⟨k, hk, rfl⟩)
      have hz : lookupD c k - lookupD t k = 0 := abs_eq_zero.1 this
      linarith
    · intro h x hx
      rcases List.mem_map.1 hx with ⟨k, hk, rfl⟩
      have := h k hk
      simp [this]

/-- C3 witness: the amended theorem evaluated at a concrete pair — the
total drift of current `{ETH: 60}` against target `{ETH: 60}` is 0 and
the allocations agree on the target's only key. -/
theorem c3_witness :
    totalDrift [("ETH", (60 : ℚ))] [("ETH", (60 : ℚ))] = 0 := by
  have h := c3_deterministic_nonneg_zero_iff
    [("ETH", (60 : ℚ))] [("ETH", (60 : ℚ))]
  exact h.2.2.2 (by intro k hk; rfl)

/-- C4: urgency is monotone non-decreasing in total drift under the
ordering Low < Medium < High < Critical. -/
theorem c4_urgency_monotone (d1 d2 : ℚ) (h : d1 ≤ d2) :
    levelRank (getDriftLevel d1).level ≤ levelRank (getDriftLevel d2).level := by
  unfold getDriftLevel
  split_ifs <;> simp [levelRank] <;> linarith

/-- C4 witness: monotonicity applied at the concrete pair 5 ≤ 12. -/
theorem c4_witness :
    levelRank (getDriftLevel 5).level ≤ levelRank (getDriftLevel 12).level :=
  c4_urgency_monotone 5 12 (by norm_num)

/-- C5: for target `{ETH:60, USDC:25, LINK:15}` and current
`{ETH:68, USDC:20, LINK:12}`, the per-asset drifts are ETH +8 (over),
USDC −5 (under), LINK −3 (under), the total drift is 16, and the urgency
level is High. -/
theorem c5_scenario :
    let cur : Alloc := [("ETH", 68), ("USDC", 20), ("LINK", 12)]
    let tgt : Alloc := [("ETH", 60), ("USDC", 25), ("LINK", 15)]
    lookupD cur "ETH" - lookupD tgt "ETH" = 8 ∧
    lookupD cur "USDC" - lookupD tgt "USDC" = -5 ∧
    lookupD cur "LINK" - lookupD tgt "LINK" = -3 ∧
    rowDrift cur tgt "ETH" = 8 ∧ driftSignMark cur tgt "ETH" = "+" ∧
    rowDrift cur tgt "USDC" = 5 ∧ driftSignMark cur tgt "USDC" = "-" ∧
    rowDrift cur tgt "LINK" = 3 ∧ driftSignMark cur tgt "LINK" = "-" ∧
    totalDrift cur tgt = 16 ∧
    (getDriftLevel (totalDrift cur tgt)).level = "High" := by
  have htot : totalDrift [("ETH", 68), ("USDC", 20), ("LINK", 12)]
      [("ETH", 60), ("USDC", 25), ("LINK", 15)] = (16 : ℚ) := by
    simp [totalDrift, lookupD]
    norm_num
  refine ⟨?_, ?_, ?_, ?_, ?_, ?_, ?_, ?_, ?_, htot, ?_⟩ <;>
    first
      | (simp [lookupD, rowDrift, driftSignMark]; norm_num)
      | (rw [htot]; norm_num [getDriftLevel])

/-- C6: an execute request with present strategy id and wallet address is
rejected at the allocation gate, with no submission, exactly when its
target percentages are off 100 by more than 0.1; within tolerance it
proceeds to submission. -/
theorem c6_allocation_sum_gate (strategyId walletAddress : String)
    (parsedStrategy : Alloc) :
    (|allocSum parsedStrategy - 100| > 1/10 →
      handleImplementStrategy (some strategyId) (some walletAddress)
        parsedStrategy = .rejectedAllocation) ∧
    (|allocSum parsedStrategy - 100| ≤ 1/10 →
      handleImplementStrategy (some strategyId) (some walletAddress)
        parsedStrategy = .proceedToSubmission) := by
  unfold handleImplementStrategy
  constructor
  · intro h
    simp only [Option.isNone_some, Bool.or_self, Bool.false_eq_true,
      if_false]
    rw [if_pos h]
  · intro h
    simp only [Option.isNone_some, Bool.or_self, Bool.false_eq_true,
      if_false]
    rw [if_neg (by linarith)]

/-- C6 witness: a balanced 50/50 strategy sums to 100 and proceeds to
submission; a 50/40 strategy sums to 90 and is rejected at the
allocation gate. -/
theorem c6_witness :
    handleImplementStrategy (some "strategy-1") (some "0xabc")
      [("ETH", 50), ("USDC", 50)] = .proceedToSubmission ∧
    handleImplementStrategy (some "strategy-1") (some "0xabc")
      [("ETH", 50), ("USDC", 40)] = .rejectedAllocation :=
  ⟨(c6_allocation_sum_gate "strategy-1" "0xabc" [("ETH", 50), ("USDC", 50)]).2
      (by norm_num [allocSum]),
   (c6_allocation_sum_gate "strategy-1" "0xabc" [("ETH", 50), ("USDC", 40)]).1
      (by norm_num [allocSum])⟩

/-- C7: for every monitoring configuration with auto-execute off, the
decision procedure never yields an execute action, whatever the portfolio
value, drift result and market state are. -/
theorem c7_no_execute_without_auto (config : SpecMonitoringConfig)
    (portfolioValue : ℚ) (drift : SpecDriftResult)
    (market : SpecMarketSnapshot) (h : config.autoExecute = false) :
    decide config portfolioValue drift market ≠ .execute := by
  unfold decide
  split_ifs with h1 h2 h3 h4 h5 h6 <;> simp_all

/-- C7 witness: a concrete balanced config with auto-execute off, facing a
high-urgency 16% drift in a calm market, still does not execute. -/
theorem c7_witness :
    decide
      { enabled := true, driftThresholdPercent := 5, maxDailyTrades := 3,
        riskProfile := .balanced, autoExecute := false,
        minPortfolioValueUsd := 100, dailyTradesCount := 1 }
      500 { totalDriftPercent := 16, urgency := .high } { riskScore := 40 }
      ≠ .execute :=
  c7_no_execute_without_auto _ 500 _ _ rfl

/-- C8 counterexample: for an asset whose current percentage equals its
target (both 60), the rendered sign mark is "-" even though the current
percentage is not below the target — refuting "negative exactly when
current is below target". -/
theorem c8_counterexample :
    driftSignMark [("ETH", (60 : ℚ))] [("ETH", (60 : ℚ))] "ETH" = "-" ∧
    ¬ lookupD [("ETH", (60 : ℚ))] "ETH" <
        lookupD [("ETH", (60 : ℚ))] "ETH" := by
  constructor
  · simp [driftSignMark, lookupD]
  · simp

/-- C8 (amended): the per-asset drift shown for each asset of the target
allocation has magnitude |current − target|, is marked positive exactly
when current exceeds target, and is marked negative exactly when current
does not exceed target (so an asset exactly on target is marked
negative with magnitude 0). -/
theorem c8_sign_and_magnitude (c t : Alloc) (k : String) :
    rowDrift c t k = |lookupD c k - lookupD t k| ∧
    (driftSignMark c t k = "+" ↔ lookupD t k < lookupD c k) ∧
    (driftSignMark c t k = "-" ↔ lookupD c k ≤ lookupD t k) := by
  unfold rowDrift driftSignMark
  refine ⟨rfl, ?_, ?_⟩
  · split_ifs with h <;> simp [h]
  · split_ifs with h
    · simp [h, not_le]
    · rw [not_lt] at h
      simp [h]

/-- C9: at most the first ten records of the actions response are kept
for display: the displayed list has length at most 10 and its entry at
each position i is the response's entry at i for i < 10 and absent
otherwise. -/
theorem c9_recent_actions_bounded (actions : List AutonomousAction) :
    (recentActionsShown actions).length ≤ 10 ∧
    ∀ i : ℕ, (recentActionsShown actions).get? i =
      if i < 10 then actions.get? i else none := by
  constructor
  · simp [recentActionsShown]
  · intro i
    unfold recentActionsShown
    split_ifs with h
    · exact List.get?_take h
    · refine List.get?_eq_none.2 ?_
      calc (actions.take 10).length ≤ 10 := by simp
        _ ≤ i := by omega

/-- C10: the three textually independent drift-level helpers — in the
chart component, at `autonomous_agent.tsx` module scope, and inside the
agent screen component — agree on every numeric drift input, producing
the same level and the same color. -/
theorem c10_drift_level_helpers_agree (d : ℚ) :
    getDriftLevel d = getDriftLevelAgent d ∧
    getDriftLevelAgent d = getDriftLevelAgentLocal d :=
  ⟨rfl, rfl⟩

end Wallet
